import Mathlib

/-!
Shallow embedding of the camscanner document-scanning pipeline
(`src/backend/scripts/crop/camscanner/`): utility geometry functions
(`utils.py`), the document-type detector (`detectors.py`), the geometry
processors (`processors.py`) and the scan orchestrator (`scanner.py`).

Images are modelled by their height together with the list of pixel
columns (one abstract value per column), since the properties under
study concern column slicing and widths.  Pixel coordinates are
integers, quality scores and ratios are exact rationals.  Fallible
steps (Python exceptions) are modelled with `Except`/`Option`.
-/

namespace CamScan

/-- An image: height in pixels and the list of columns.  Each column is
abstracted to a single value; the width is the number of columns, which
is all the column-slicing operations of the code observe. -/
structure Img where
  height : Nat
  cols : List Int
deriving DecidableEq

/-- Width of an image (number of columns), `img.shape[1]` in the code. -/
def Img.width (img : Img) : Nat := img.cols.length

/-- Exact rational multiplication, stated through `Rat.divInt` so that
concrete instances evaluate by kernel reduction; equal to `·*·` by
`qmul_eq_mul` below. -/
def qmul (a b : ℚ) : ℚ := Rat.divInt (a.num * b.num) ((a.den : Int) * (b.den : Int))

/-- Exact rational division, stated through `Rat.divInt` so that
concrete instances evaluate by kernel reduction; equal to `·/·` by
`qdiv_eq_div` below. -/
def qdiv (a b : ℚ) : ℚ := Rat.divInt (a.num * (b.den : Int)) ((a.den : Int) * b.num)

/-- A contour: a list of 2-D integer points, as the 4-point page contour
arrays of the code. -/
structure Contour where
  points : List (Int × Int)
deriving DecidableEq

/-- Cyclic shoelace sum of a polygon given as a point list. -/
def shoelace : List (Int × Int) → (Int × Int) → Int
  | [], _ => 0
  | [p], first => p.1 * first.2 - first.1 * p.2
  | p :: q :: rest, first => (p.1 * q.2 - q.1 * p.2) + shoelace (q :: rest) first

/-- Polygon area of a contour, as computed by `cv2.contourArea`
(absolute value of half the shoelace sum). -/
def contourArea (c : Contour) : ℚ :=
  match c.points with
  | [] => 0
  | p :: rest => mkRat (Int.natAbs (shoelace (p :: rest) p)) 2

/-- Minimum x coordinate over a contour's points
(`get_contour_bounds`, min side). -/
def contour_min_x (c : Contour) : Int :=
  match c.points.map Prod.fst with
  | [] => 0
  | x :: xs => xs.foldl min x

/-- Maximum x coordinate over a contour's points
(`get_contour_bounds`, max side). -/
def contour_max_x (c : Contour) : Int :=
  match c.points.map Prod.fst with
  | [] => 0
  | x :: xs => xs.foldl max x

/-- `utils.get_page_width`: width of the contour's x-extent. -/
def get_page_width (c : Contour) : Int :=
  contour_max_x c - contour_min_x c

/-- Truncation toward zero of a rational, as Python `int()` applied to
an exact value. -/
def ratTruncToInt (q : ℚ) : Int := Int.tdiv q.num (Int.ofNat q.den)

/-- `utils.get_page_center_x`: integer truncation of the mean of the
contour's x coordinates. -/
def get_page_center_x (c : Contour) : Int :=
  let xs := c.points.map Prod.fst
  match xs with
  | [] => 0
  | _ :: _ => ratTruncToInt (((xs.foldl (· + ·) 0 : Int) : ℚ) / (xs.length : ℚ))

/-- `utils.is_valid_contour`: the contour must enclose between 10% and
98% of the image area; a missing contour is invalid. -/
def is_valid_contour (c : Option Contour) (h w : Nat) : Bool :=
  match c with
  | none => false
  | some cc =>
    let imgArea : ℚ := ((h * w : Nat) : ℚ)
    let a := contourArea cc
    decide (qmul imgArea (mkRat 10 100) ≤ a ∧ a ≤ qmul imgArea (mkRat 98 100))

/-- `utils.page_covers_full_image`: true when the contour area covers at
least `threshold` of the image area. -/
def page_covers_full_image (c : Option Contour) (h w : Nat) (threshold : ℚ) : Bool :=
  match c with
  | none => false
  | some cc =>
    let imgArea : ℚ := ((h * w : Nat) : ℚ)
    decide (threshold ≤ qdiv (contourArea cc) imgArea)

/-- `utils.calculate_fold_position_ratio` (renamed): fold x position as
a ratio of the page's x-extent, clamped into [0, 1]; 1/2 when the page
width is zero. -/
def calculate_fold_position (fold_x : Int) (c : Contour) : ℚ :=
  let minx := contour_min_x c
  let maxx := contour_max_x c
  let pw := maxx - minx
  if pw = 0 then mkRat 1 2
  else max 0 (min 1 (qdiv (((fold_x - minx : Int)) : ℚ) (((pw : Int)) : ℚ)))

/-- `utils.split_at_fold`: left part is columns `[0, fold_x + border)`
clamped to the width, right part is columns `[fold_x - border, width)`
clamped at zero. -/
def split_at_fold (img : Img) (fold_x : Nat) (fold_border : Nat) : Img × Img :=
  let w := img.width
  let left_end := min w (fold_x + fold_border)
  let right_start := fold_x - fold_border
  (⟨img.height, img.cols.take left_end⟩, ⟨img.height, img.cols.drop right_start⟩)

/-- Classification info dict built by `DocumentTypeDetector._classify_document`
and `_classify_book_spread`: the keys the classifier may set. -/
structure Info where
  fold_pos : Option ℚ
  page_width : Option Int
  page_center_x : Option Int
  fold_side : Option String
  reason : Option String
  warnings : List String
  page_coverage : Option Bool
deriving DecidableEq

/-- The empty info dict. -/
def Info.empty : Info := ⟨none, none, none, none, none, [], none⟩

/-- Warning emitted by the classifier when a full book spread has both
pages visible (the two concatenated string literals of the source). -/
def bookSpreadWarning : String :=
  "Full book spread detected with both pages visible. Consider photographing pages individually for better quality."

/-- `DocumentTypeDetector._classify_book_spread`: check whether the page
covers at least 85% of the image; if so warn and scale confidence by 0.7,
otherwise keep the fold quality as confidence. -/
def classify_book_spread (h w : Nat) (c : Contour) (fold_quality : ℚ)
    (info : Info) : String × ℚ × Info :=
  let cov := page_covers_full_image (some c) h w (mkRat 85 100)
  let info2 := { info with page_coverage := some cov }
  if cov then
    ("book_spread", qmul fold_quality (mkRat 7 10), { info2 with warnings := [bookSpreadWarning] })
  else
    ("book_spread", fold_quality, info2)

/-- `DocumentTypeDetector._classify_document`: no fold or quality below
threshold gives `single` at confidence 0.8; otherwise dispatch on the
clamped fold position ratio: [0.4, 0.6] book spread, below 0.2 partial
left, above 0.8 partial right, otherwise unknown at half the quality. -/
def classify_document (qthresh : ℚ) (h w : Nat) (c : Contour)
    (fold_x : Option Int) (fold_quality : ℚ) : String × ℚ × Info :=
  match fold_x with
  | none => ("single", mkRat 8 10, Info.empty)
  | some fx =>
    if fold_quality < qthresh then
      ("single", mkRat 8 10, Info.empty)
    else
      let r := calculate_fold_position fx c
      let info1 : Info :=
        { Info.empty with
            fold_pos := some r
            page_width := some (get_page_width c)
            page_center_x := some (get_page_center_x c) }
      if mkRat 4 10 ≤ r ∧ r ≤ mkRat 6 10 then
        classify_book_spread h w c fold_quality info1
      else if r < mkRat 2 10 then
        ("partial_left", fold_quality, { info1 with fold_side := some "left" })
      else if mkRat 8 10 < r then
        ("partial_right", fold_quality, { info1 with fold_side := some "right" })
      else
        ("unknown", qmul fold_quality (mkRat 5 10), { info1 with reason := some "ambiguous_fold_position" })

/-- Python `max(detections, key=quality)`: the first detection of
maximal quality (later items replace only when strictly greater). -/
def best_detection : List (Int × ℚ × String) → Option (Int × ℚ × String)
  | [] => none
  | d :: ds => some (ds.foldl (fun acc x => if acc.2.1 < x.2.1 then x else acc) d)

/-- Oracle outcomes of the external CV primitives consumed by
`DocumentTypeDetector.detect`: the page-boundary detection result
(already exception-safe, absent on failure), and the
`detect_fold_combined` result for each searched region, in the order
center, left, right. -/
structure DetectEnv where
  boundary : Option Contour
  folds : List (Option (Int × ℚ × String))
deriving DecidableEq

/-- Detection metadata assembled by `DocumentTypeDetector.detect`. -/
structure DetectMeta where
  page_contour : Option Contour
  fold_x : Option Int
  fold_quality : ℚ
  fold_method : Option String
  info : Info
deriving DecidableEq

/-- Metadata returned when no valid page boundary is detected. -/
def no_boundary_meta : DetectMeta :=
  ⟨none, none, 0, none, { Info.empty with reason := some "no_page_boundary" }⟩

/-- `DocumentTypeDetector.detect`: validity-check the boundary, pick the
best fold candidate over the searched regions, classify. -/
def detect (qthresh : ℚ) (h w : Nat) (env : DetectEnv) : String × ℚ × DetectMeta :=
  match env.boundary with
  | none => ("unknown", 0, no_boundary_meta)
  | some c =>
    if is_valid_contour (some c) h w = false then
      ("unknown", 0, no_boundary_meta)
    else
      let dets := env.folds.filterMap id
      match best_detection dets with
      | none =>
        let r := classify_document qthresh h w c none 0
        (r.1, r.2.1, ⟨some c, none, 0, none, r.2.2⟩)
      | some d =>
        let r := classify_document qthresh h w c (some d.1) d.2.1
        (r.1, r.2.1, ⟨some c, some d.1, d.2.1, some d.2.2, r.2.2⟩)

/-- Membership of a ratio in the i-th of the five classification bands
of the decision policy, in left-to-right order. -/
def band_memb (i : Nat) (r : ℚ) : Bool :=
  match i with
  | 0 => decide (r < mkRat 2 10)
  | 1 => decide (mkRat 2 10 ≤ r ∧ r < mkRat 4 10)
  | 2 => decide (mkRat 4 10 ≤ r ∧ r ≤ mkRat 6 10)
  | 3 => decide (mkRat 6 10 < r ∧ r ≤ mkRat 8 10)
  | _ => decide (mkRat 8 10 < r)

/-- Configuration recognized by the scanner and processors. -/
structure Config where
  quality_threshold : ℚ
  contour_border : Nat
  fold_border : Nat
deriving DecidableEq

/-- The default configuration (threshold 0.6, borders 150px). -/
def default_config : Config := ⟨mkRat 6 10, 150, 150⟩

/-- A 3x3 perspective matrix, as a `cv2` transform matrix. -/
abbrev Mat := Fin 3 → Fin 3 → ℚ

/-- Oracle outcome of the external `warp_image` primitive: the warped
image on success, absent when the primitive raised. -/
structure WarpEnv where
  warpResult : Option Img
deriving DecidableEq

/-- `utils.apply_perspective_correction`: returns the warped image, and
always `None` for the transform matrix (the source comments that
`warp_image` returns a rotation matrix, not the perspective transform,
and hard-codes the second component to `None`); on an internal failure
both components are absent. -/
def apply_perspective_correction (wenv : WarpEnv) : Option Img × Option Mat :=
  match wenv.warpResult with
  | none => (none, none)
  | some warped => (some warped, none)

/-- Application of a 3x3 perspective matrix to one 2-D point. -/
def perspective_point (m : Mat) (p : ℚ × ℚ) : ℚ × ℚ :=
  let d := m 2 0 * p.1 + m 2 1 * p.2 + m 2 2
  ((m 0 0 * p.1 + m 0 1 * p.2 + m 0 2) / d,
   (m 1 0 * p.1 + m 1 1 * p.2 + m 1 2) / d)

/-- `cv2.perspectiveTransform` on a two-point line: raises when the
matrix argument is `None`, otherwise maps both points. -/
def cv_perspective_transform_line (m : Option Mat) (p q : ℚ × ℚ) :
    Except String ((ℚ × ℚ) × (ℚ × ℚ)) :=
  match m with
  | none => Except.error "perspectiveTransform: transformation matrix argument is None"
  | some mm => Except.ok (perspective_point mm p, perspective_point mm q)

/-- Result dict produced by a geometry processor. -/
structure ProcResult where
  processed_image : Img
  left_image : Option Img
  right_image : Option Img
  success : Bool
  method : String
  warnings : List String
  reason : Option String
  errorMsg : Option String
  kept_side : Option String
  fold_x_out : Option Int
deriving DecidableEq

/-- `SingleDocumentProcessor.process`: perspective-correct only; fall
back to the original image when correction fails. -/
def single_document_process (wenv : WarpEnv) (img : Img) : ProcResult :=
  match apply_perspective_correction wenv with
  | (none, _) =>
    { processed_image := img, left_image := none, right_image := none,
      success := false, method := "fallback_original", warnings := [],
      reason := some "perspective_correction_failed", errorMsg := none,
      kept_side := none, fold_x_out := none }
  | (some warped, _) =>
    { processed_image := warped, left_image := none, right_image := none,
      success := true, method := "perspective_correction", warnings := [],
      reason := none, errorMsg := none, kept_side := none, fold_x_out := none }

/-- Warning appended by the book-spread processor when the fold quality
is below threshold (the numeric interpolation of the source message is
abstracted away). -/
def lowQualityWarning : String :=
  "Fold detection quality low. Image not split into pages."

/-- `BookSpreadProcessor.process`: perspective-correct, remap the fold
line through the transform matrix returned by the correction step, then
split at the remapped fold.  Any exception inside the body (in
particular `cv2.perspectiveTransform` on a `None` matrix) is caught and
turned into a fallback result carrying the original image,
`success = false` and the error message. -/
def book_spread_process (cfg : Config) (wenv : WarpEnv) (img : Img)
    (fold_x : Int) (fold_quality : ℚ) (metaWarnings : List String) : ProcResult :=
  match apply_perspective_correction wenv with
  | (none, _) =>
    { processed_image := img, left_image := none, right_image := none,
      success := false, method := "fallback_original", warnings := metaWarnings,
      reason := some "perspective_correction_failed", errorMsg := none,
      kept_side := none, fold_x_out := none }
  | (some warped, transformM) =>
    match cv_perspective_transform_line transformM
        ((fold_x : ℚ), 0) ((fold_x : ℚ), ((img.height : ℚ) - 1)) with
    | Except.error e =>
      { processed_image := img, left_image := none, right_image := none,
        success := false, method := "fallback_original", warnings := metaWarnings,
        reason := none, errorMsg := some e, kept_side := none, fold_x_out := none }
    | Except.ok pts =>
      let warped_fold_x : Int := ratTruncToInt ((pts.1.1 + pts.2.1) / 2)
      if fold_quality < cfg.quality_threshold then
        { processed_image := warped, left_image := none, right_image := none,
          success := true, method := "no_split_low_quality",
          warnings := metaWarnings ++ [lowQualityWarning],
          reason := none, errorMsg := none, kept_side := none, fold_x_out := none }
      else
        let lr := split_at_fold warped warped_fold_x.toNat cfg.fold_border
        { processed_image := warped, left_image := some lr.1, right_image := some lr.2,
          success := true, method := "split_at_fold", warnings := metaWarnings,
          reason := none, errorMsg := none, kept_side := none,
          fold_x_out := some warped_fold_x }

/-- `PartialBookProcessor.process`: perspective-correct, then crop by a
fixed image-dimension ratio (the detected fold coordinate is not used):
fold on the left keeps columns from 25% of the width, otherwise the
crop keeps columns up to 75% of the width. -/
def partial_book_process (wenv : WarpEnv) (img : Img)
    (fold_x : Int) (fold_side : String) : ProcResult :=
  match apply_perspective_correction wenv with
  | (none, _) =>
    { processed_image := img, left_image := none, right_image := none,
      success := false, method := "fallback_original", warnings := [],
      reason := some "perspective_correction_failed", errorMsg := none,
      kept_side := none, fold_x_out := none }
  | (some warped, _) =>
    let w := warped.width
    if fold_side = "left" then
      let crop_start := w * 25 / 100
      { processed_image := ⟨warped.height, warped.cols.drop crop_start⟩,
        left_image := none, right_image := none,
        success := true, method := "crop_at_fold", warnings := [],
        reason := none, errorMsg := none, kept_side := some "right", fold_x_out := none }
    else
      let crop_end := w * 75 / 100
      { processed_image := ⟨warped.height, warped.cols.take crop_end⟩,
        left_image := none, right_image := none,
        success := true, method := "crop_at_fold", warnings := [],
        reason := none, errorMsg := none, kept_side := some "left", fold_x_out := none }

deriving instance DecidableEq for Except

/-- Oracle outcomes of all external primitives a single `scan` call
consumes: image loading (which may raise), boundary and fold detection,
and perspective warping. -/
structure ScanEnv where
  loadResult : Except String Img
  denv : DetectEnv
  wenv : WarpEnv
deriving DecidableEq

/-- The externally visible scan result object. -/
structure ScanResult where
  processed_image : Option Img
  left_image : Option Img
  right_image : Option Img
  document_type : String
  confidence : ℚ
  warnings : List String
  success : Bool
  debug_error : Option String
  debug_reason : Option String
deriving DecidableEq

/-- `CamScanner._create_error_result`: unknown type, zero confidence,
failure, the error message in the warnings and in the diagnostics; the
original image is reloaded on a best-effort basis. -/
def create_error_result (env : ScanEnv) (msg : String) : ScanResult :=
  { processed_image := env.loadResult.toOption,
    left_image := none, right_image := none,
    document_type := "unknown", confidence := 0,
    warnings := ["Error during processing: " ++ msg],
    success := false, debug_error := some msg, debug_reason := none }

/-- `CamScanner._create_fallback_result`: the original image with
unknown type, zero confidence and no success. -/
def create_fallback_result (img : Img) (metaWarnings : List String)
    (reason : Option String) : ScanResult :=
  let ws := match reason with
    | none => metaWarnings
    | some r => metaWarnings ++ ["Processing failed: " ++ r ++ ". Returning original image."]
  { processed_image := some img, left_image := none, right_image := none,
    document_type := "unknown", confidence := 0,
    warnings := ws, success := false, debug_error := none,
    debug_reason := some (reason.getD "detection_failed") }

/-- `CamScanner._create_result`: package the processor result, joining
the detection-metadata warnings with the processing-result warnings. -/
def create_result (doc_type : String) (conf : ℚ) (metaWarnings : List String)
    (pr : ProcResult) : ScanResult :=
  { processed_image := some pr.processed_image,
    left_image := pr.left_image, right_image := pr.right_image,
    document_type := doc_type, confidence := conf,
    warnings := metaWarnings ++ pr.warnings,
    success := pr.success, debug_error := none, debug_reason := none }

/-- Body of `CamScanner.scan` inside its `try` block: load, detect,
dispatch to the processor selected by `create_processor`, package.  An
`Except.error` models an exception escaping to the orchestrator's
handler. -/
def scan_body (cfg : Config) (env : ScanEnv) : Except String ScanResult :=
  match env.loadResult with
  | Except.error e => Except.error e
  | Except.ok img =>
    let d := detect cfg.quality_threshold img.height img.width env.denv
    let doc_type := d.1
    let conf := d.2.1
    let meta := d.2.2
    if doc_type = "unknown" then
      Except.ok (create_fallback_result img meta.info.warnings none)
    else if doc_type = "single" then
      Except.ok (create_result doc_type conf meta.info.warnings
        (single_document_process env.wenv img))
    else if doc_type = "book_spread" then
      Except.ok (create_result doc_type conf meta.info.warnings
        (book_spread_process cfg env.wenv img (meta.fold_x.getD 0)
          meta.fold_quality meta.info.warnings))
    else if doc_type = "partial_left" ∨ doc_type = "partial_right" then
      Except.ok (create_result doc_type conf meta.info.warnings
        (partial_book_process env.wenv img (meta.fold_x.getD 0)
          (meta.info.fold_side.getD "")))
    else
      Except.ok (create_fallback_result img meta.info.warnings
        (some ("No processor for type " ++ doc_type)))

/-- `CamScanner.scan`: the body wrapped in the orchestrator's exception
handler, which converts any escaping exception into an error result. -/
def scan (cfg : Config) (env : ScanEnv) : ScanResult :=
  match scan_body cfg env with
  | Except.ok r => r
  | Except.error e => create_error_result env e

/-! Bridging lemmas between the kernel-computable rational operations
used in the definitions and the standard field operations. -/

theorem qmul_eq_mul (a b : ℚ) : qmul a b = a * b := by
  unfold qmul
  rw [Rat.divInt_eq_div]
  push_cast
  conv_rhs => rw [← Rat.num_div_den a, ← Rat.num_div_den b]
  rw [div_mul_div_comm]

theorem qdiv_eq_div (a b : ℚ) : qdiv a b = a / b := by
  unfold qdiv
  rw [Rat.divInt_eq_div]
  push_cast
  conv_rhs => rw [← Rat.num_div_den a, ← Rat.num_div_den b, div_div_eq_mul_div,
    div_mul_eq_mul_div, div_div]

theorem mkRat_q (n : Int) (d : Nat) : (mkRat n d : ℚ) = (n : ℚ) / (d : ℚ) := by
  rw [Rat.mkRat_eq_div]

/-! ### Claim theorems -/

/-- C8: for an image of width W, a fold position `fold_x` inside the
image and a border `b`, the fold split satisfies the overlap property
`left.width + right.width > W` whenever `b > 0`, and
`left.width + right.width = W + 2*b` when both crops stay in bounds. -/
theorem split_at_fold_widths (img : Img) (fold_x fold_border : Nat) :
    (0 < fold_border → fold_x < img.width →
      img.width <
        (split_at_fold img fold_x fold_border).1.width +
          (split_at_fold img fold_x fold_border).2.width) ∧
    (fold_border ≤ fold_x → fold_x + fold_border ≤ img.width →
      (split_at_fold img fold_x fold_border).1.width +
          (split_at_fold img fold_x fold_border).2.width
        = img.width + 2 * fold_border) := by
  unfold split_at_fold Img.width
  simp only [List.length_take, List.length_drop]
  constructor
  · intro h1 h2
    omega
  · intro h1 h2
    omega

/-- Witness for C8 at a concrete image of width 4, fold at 2, border 1:
both hypotheses hold and both conclusions evaluate. -/
theorem split_at_fold_widths_witness :
    ((⟨1, [5, 6, 7, 8]⟩ : Img).width <
      (split_at_fold ⟨1, [5, 6, 7, 8]⟩ 2 1).1.width +
        (split_at_fold ⟨1, [5, 6, 7, 8]⟩ 2 1).2.width) ∧
    ((split_at_fold ⟨1, [5, 6, 7, 8]⟩ 2 1).1.width +
        (split_at_fold ⟨1, [5, 6, 7, 8]⟩ 2 1).2.width
      = (⟨1, [5, 6, 7, 8]⟩ : Img).width + 2 * 1) :=
  ⟨(split_at_fold_widths ⟨1, [5, 6, 7, 8]⟩ 2 1).1 (by decide) (by decide),
   (split_at_fold_widths ⟨1, [5, 6, 7, 8]⟩ 2 1).2 (by decide) (by decide)⟩

/-- C1 (code evaluation): the book-spread processor never succeeds and
never produces page images: `apply_perspective_correction` hard-codes
the transform matrix to `None`, so the fold-line remapping step raises
inside the processor's `try` block and the handler returns the fallback
with `success = false`; when correction itself fails the fallback is
returned as well. -/
theorem book_spread_process_never_splits (cfg : Config) (wenv : WarpEnv) (img : Img)
    (fold_x : Int) (fold_quality : ℚ) (metaWarnings : List String) :
    (book_spread_process cfg wenv img fold_x fold_quality metaWarnings).success = false ∧
    (book_spread_process cfg wenv img fold_x fold_quality metaWarnings).left_image = none ∧
    (book_spread_process cfg wenv img fold_x fold_quality metaWarnings).right_image = none := by
  unfold book_spread_process apply_perspective_correction cv_perspective_transform_line
  rcases wenv.warpResult with _ | warped
  · exact ⟨rfl, rfl, rfl⟩
  · exact ⟨rfl, rfl, rfl⟩

/-- C9: when perspective correction returns a corrected image, the
partial-book processor succeeds and crops purely by image-dimension
ratio: fold on the left keeps columns [25% of width, width), fold on
the right keeps columns [0, 75% of width); the detected fold coordinate
is never consulted. -/
theorem partial_book_process_crops (wenv : WarpEnv) (img : Img) (fold_x : Int)
    (warped : Img) (hw : wenv.warpResult = some warped) :
    (partial_book_process wenv img fold_x "left" =
      { processed_image := ⟨warped.height, warped.cols.drop (warped.width * 25 / 100)⟩,
        left_image := none, right_image := none,
        success := true, method := "crop_at_fold", warnings := [],
        reason := none, errorMsg := none, kept_side := some "right", fold_x_out := none }) ∧
    (partial_book_process wenv img fold_x "right" =
      { processed_image := ⟨warped.height, warped.cols.take (warped.width * 75 / 100)⟩,
        left_image := none, right_image := none,
        success := true, method := "crop_at_fold", warnings := [],
        reason := none, errorMsg := none, kept_side := some "left", fold_x_out := none }) ∧
    (∀ fx1 fx2 : Int, ∀ side : String,
      partial_book_process wenv img fx1 side = partial_book_process wenv img fx2 side) := by
  refine ⟨?_, ?_, fun fx1 fx2 side => rfl⟩
  · unfold partial_book_process apply_perspective_correction
    simp [hw]
  · unfold partial_book_process apply_perspective_correction
    simp [hw]

/-- Witness for C9 at a concrete corrected image of width 8. -/
theorem partial_book_process_crops_witness :
    (partial_book_process ⟨some ⟨1, [0, 1, 2, 3, 4, 5, 6, 7]⟩⟩ ⟨1, [9]⟩ 3 "left" =
      { processed_image := ⟨1, [2, 3, 4, 5, 6, 7]⟩,
        left_image := none, right_image := none,
        success := true, method := "crop_at_fold", warnings := [],
        reason := none, errorMsg := none, kept_side := some "right", fold_x_out := none }) ∧
    (partial_book_process ⟨some ⟨1, [0, 1, 2, 3, 4, 5, 6, 7]⟩⟩ ⟨1, [9]⟩ 3 "right" =
      { processed_image := ⟨1, [0, 1, 2, 3, 4, 5]⟩,
        left_image := none, right_image := none,
        success := true, method := "crop_at_fold", warnings := [],
        reason := none, errorMsg := none, kept_side := some "left", fold_x_out := none }) ∧
    (∀ fx1 fx2 : Int, ∀ side : String,
      partial_book_process ⟨some ⟨1, [0, 1, 2, 3, 4, 5, 6, 7]⟩⟩ ⟨1, [9]⟩ fx1 side =
        partial_book_process ⟨some ⟨1, [0, 1, 2, 3, 4, 5, 6, 7]⟩⟩ ⟨1, [9]⟩ fx2 side) := by
  have h := partial_book_process_crops ⟨some ⟨1, [0, 1, 2, 3, 4, 5, 6, 7]⟩⟩ ⟨1, [9]⟩ 3
    ⟨1, [0, 1, 2, 3, 4, 5, 6, 7]⟩ rfl
  exact ⟨(h.1).trans (by decide), (h.2.1).trans (by decide), h.2.2⟩

/-- C2: the orchestrator catches every exception escaping the scan body
and converts it into a `ScanResult` with unknown document type, no
success, and the error message recorded in the diagnostics (and in the
warnings). -/
theorem scan_catches_errors (cfg : Config) (env : ScanEnv) (e : String)
    (hb : scan_body cfg env = Except.error e) :
    scan cfg env = create_error_result env e ∧
    (scan cfg env).document_type = "unknown" ∧
    (scan cfg env).success = false ∧
    (scan cfg env).debug_error = some e ∧
    (scan cfg env).warnings = ["Error during processing: " ++ e] := by
  unfold scan
  rw [hb]
  exact ⟨rfl, rfl, rfl, rfl, rfl⟩

/-- A scan environment whose image loading raises. -/
def err_env : ScanEnv := ⟨Except.error "boom", ⟨none, []⟩, ⟨none⟩⟩

/-- Witness for C2 at an environment whose load step raises "boom". -/
theorem scan_catches_errors_witness :
    scan default_config err_env = create_error_result err_env "boom" ∧
    (scan default_config err_env).document_type = "unknown" ∧
    (scan default_config err_env).success = false ∧
    (scan default_config err_env).debug_error = some "boom" ∧
    (scan default_config err_env).warnings = ["Error during processing: " ++ "boom"] :=
  scan_catches_errors default_config err_env "boom" (by decide)

/-- Helper: an absent or invalid boundary makes `detect` return the
unknown classification with confidence 0. -/
theorem detect_invalid (qt : ℚ) (h w : Nat) (env : DetectEnv)
    (hv : is_valid_contour env.boundary h w = false) :
    detect qt h w env = ("unknown", 0, no_boundary_meta) := by
  unfold detect
  rcases hb : env.boundary with _ | c
  · rfl
  · rw [hb] at hv
    simp [hv]

/-- C6: when no boundary quadrilateral is detected, or the detected one
fails the 10%-98% area validity check, `scan` returns a result with
document type unknown, confidence 0 and no success. -/
theorem scan_no_boundary (cfg : Config) (env : ScanEnv) (img : Img)
    (hl : env.loadResult = Except.ok img)
    (hv : is_valid_contour env.denv.boundary img.height img.width = false) :
    (scan cfg env).document_type = "unknown" ∧
    (scan cfg env).confidence = 0 ∧
    (scan cfg env).success = false := by
  have hd := detect_invalid cfg.quality_threshold img.height img.width env.denv hv
  unfold scan scan_body
  rw [hl]
  simp only [hd]
  simp [create_fallback_result, no_boundary_meta]

/-- A scan environment whose boundary detection finds nothing. -/
def c6_env : ScanEnv := ⟨Except.ok ⟨10, [0, 0, 0]⟩, ⟨none, [none]⟩, ⟨none⟩⟩

/-- Witness for C6 at an environment with no detected boundary. -/
theorem scan_no_boundary_witness :
    (scan default_config c6_env).document_type = "unknown" ∧
    (scan default_config c6_env).confidence = 0 ∧
    (scan default_config c6_env).success = false :=
  scan_no_boundary default_config c6_env ⟨10, [0, 0, 0]⟩ (by decide) (by decide)

/-- Helper: the classifier on an absent fold. -/
theorem classify_document_none (qt : ℚ) (h w : Nat) (c : Contour) (q : ℚ) :
    classify_document qt h w c none q = ("single", mkRat 8 10, Info.empty) := rfl

/-- Helper: the classifier on a fold whose quality is below threshold. -/
theorem classify_document_lowq (qt : ℚ) (h w : Nat) (c : Contour) (fx : Int) (q : ℚ)
    (hq : q < qt) :
    classify_document qt h w c (some fx) q = ("single", mkRat 8 10, Info.empty) := by
  simp only [classify_document]
  rw [if_pos hq]

/-- C5: with a valid boundary, when no fold candidate is found in any
region, or the best candidate's quality is strictly below the
threshold, `detect` classifies the image as a single document with
confidence exactly 0.8. -/
theorem detect_single_on_no_fold (qt : ℚ) (h w : Nat) (env : DetectEnv) (c : Contour)
    (hb : env.boundary = some c)
    (hv : is_valid_contour (some c) h w = true)
    (hf : best_detection (env.folds.filterMap id) = none ∨
      ∃ d : Int × ℚ × String,
        best_detection (env.folds.filterMap id) = some d ∧ d.2.1 < qt) :
    (detect qt h w env).1 = "single" ∧ (detect qt h w env).2.1 = 8/10 := by
  have h810 : (mkRat 8 10 : ℚ) = 8/10 := by rw [mkRat_q]; norm_num
  have hv' : ¬ (is_valid_contour (some c) h w = false) := by rw [hv]; simp
  unfold detect
  rw [hb]
  simp only [if_neg hv']
  rcases hf with hf | ⟨d, hd, hq⟩
  · refine ⟨?_, ?_⟩
    · simp [hf, classify_document_none]
    · simp only [hf, classify_document_none]
      exact h810
  · refine ⟨?_, ?_⟩
    · simp [hd, classify_document_lowq qt h w c d.1 d.2.1 hq]
    · simp only [hd, classify_document_lowq qt h w c d.1 d.2.1 hq]
      exact h810

/-- A detect environment with a valid boundary and no fold candidate in
any region. -/
def c5_env : DetectEnv := ⟨some ⟨[(0, 0), (90, 0), (90, 60), (0, 60)]⟩, [none, none, none]⟩

/-- Witness for C5 at a 100x100 image, a valid 54%-area boundary and no
fold detections. -/
theorem detect_single_on_no_fold_witness :
    (detect (mkRat 6 10) 100 100 c5_env).1 = "single" ∧
    (detect (mkRat 6 10) 100 100 c5_env).2.1 = 8/10 :=
  detect_single_on_no_fold (mkRat 6 10) 100 100 c5_env
    ⟨[(0, 0), (90, 0), (90, 60), (0, 60)]⟩ (by decide) (by decide) (Or.inl (by decide))

/-- The boundary quadrilateral of C4's scenario: an 80x50 rectangle,
covering exactly 40% of a 100x100 image. -/
def c40_contour : Contour := ⟨[(0, 0), (80, 0), (80, 50), (0, 50)]⟩

/-- A detect environment carrying that boundary. -/
def c4_denv : DetectEnv := ⟨some c40_contour, [none, none, none]⟩

/-- C4 counterexample: on a boundary covering exactly 40% of a 100x100
image, the area validity check passes (40% lies inside the valid
10%-98% band) and the detector does not return unknown with confidence
0: with no fold signal it classifies the image as single with
confidence 0.8. -/
theorem c4_forty_percent_counterexample :
    is_valid_contour (some c40_contour) 100 100 = true ∧
    (detect (mkRat 6 10) 100 100 c4_denv).1 = "single" ∧
    (detect (mkRat 6 10) 100 100 c4_denv).2.1 = 8/10 := by
  have h810 : (mkRat 8 10 : ℚ) = 8/10 := by rw [mkRat_q]; norm_num
  refine ⟨by decide, by decide, ?_⟩
  rw [← h810]
  decide

/-- C4 amended: the area validity check fails on the low side exactly
when the contour area is below 10% of the image area (`qmul` is exact
rational multiplication), and then the detector returns unknown with
confidence 0 regardless of any fold signal. -/
theorem detect_small_area_unknown (qt : ℚ) (h w : Nat) (c : Contour)
    (folds : List (Option (Int × ℚ × String)))
    (hlow : contourArea c < qmul (((h * w : Nat)) : ℚ) (mkRat 10 100)) :
    is_valid_contour (some c) h w = false ∧
    detect qt h w ⟨some c, folds⟩ = ("unknown", 0, no_boundary_meta) := by
  have hfalse : is_valid_contour (some c) h w = false := by
    simp only [is_valid_contour]
    rw [decide_eq_false_iff_not]
    rintro ⟨h1, _⟩
    exact absurd h1 (not_le.mpr hlow)
  exact ⟨hfalse, detect_invalid qt h w ⟨some c, folds⟩ hfalse⟩

/-- The 4%-area boundary of the amended C4: a 20x20 square on a 100x100
image. -/
def c4pct_contour : Contour := ⟨[(0, 0), (20, 0), (20, 20), (0, 20)]⟩

/-- Witness for the amended C4 at a 4%-area boundary with a strong fold
signal present. -/
theorem detect_small_area_unknown_witness :
    is_valid_contour (some c4pct_contour) 100 100 = false ∧
    detect (mkRat 6 10) 100 100 ⟨some c4pct_contour, [some (10, mkRat 9 10, "hough")]⟩ =
      ("unknown", 0, no_boundary_meta) :=
  detect_small_area_unknown (mkRat 6 10) 100 100 c4pct_contour
    [some (10, mkRat 9 10, "hough")] (by decide)

/-- C7: under a book-spread classification (fold quality at least the
threshold, fold ratio within [0.4, 0.6]), a page coverage of at least
85% of the image yields the both-pages-visible warning and confidence
scaled to quality times 0.7, while lower coverage yields no warning and
confidence equal to the fold quality. -/
theorem classify_book_spread_coverage (qt q : ℚ) (h w : Nat) (c : Contour) (fx : Int)
    (hq : qt ≤ q)
    (h1 : mkRat 4 10 ≤ calculate_fold_position fx c)
    (h2 : calculate_fold_position fx c ≤ mkRat 6 10) :
    (page_covers_full_image (some c) h w (mkRat 85 100) = true →
      classify_document qt h w c (some fx) q =
        ("book_spread", q * (7/10),
          { Info.empty with
              fold_pos := some (calculate_fold_position fx c),
              page_width := some (get_page_width c),
              page_center_x := some (get_page_center_x c),
              warnings := [bookSpreadWarning],
              page_coverage := some true })) ∧
    (page_covers_full_image (some c) h w (mkRat 85 100) = false →
      classify_document qt h w c (some fx) q =
        ("book_spread", q,
          { Info.empty with
              fold_pos := some (calculate_fold_position fx c),
              page_width := some (get_page_width c),
              page_center_x := some (get_page_center_x c),
              page_coverage := some false })) := by
  have hm7 : (mkRat 7 10 : ℚ) = 7/10 := by rw [mkRat_q]; norm_num
  have hq' : ¬ q < qt := not_lt.mpr hq
  constructor <;> intro hcov <;>
    simp only [classify_document, if_neg hq', if_pos (And.intro h1 h2),
      classify_book_spread, hcov, if_pos rfl, qmul_eq_mul, hm7, Info.empty] <;>
    rfl

/-- Helper: the clamped fold position ratio is nonnegative. -/
theorem calculate_fold_position_nonneg (fx : Int) (c : Contour) :
    0 ≤ calculate_fold_position fx c := by
  unfold calculate_fold_position
  dsimp only
  split
  · decide
  · exact le_max_left 0 _

/-- Helper: the clamped fold position ratio is at most one. -/
theorem calculate_fold_position_le_one (fx : Int) (c : Contour) :
    calculate_fold_position fx c ≤ 1 := by
  unfold calculate_fold_position
  dsimp only
  split
  · decide
  · exact max_le (by norm_num) (min_le_left 1 _)

/-- Helper: the clamped fold position ratio always lies in [0, 1]. -/
theorem calculate_fold_position_range (fx : Int) (c : Contour) :
    0 ≤ calculate_fold_position fx c ∧ calculate_fold_position fx c ≤ 1 :=
  ⟨calculate_fold_position_nonneg fx c, calculate_fold_position_le_one fx c⟩

/-- Helper: every ratio value falls into exactly one of the five
classification bands. -/
theorem band_memb_exists_unique (r : ℚ) : ∃! i : Nat, i < 5 ∧ band_memb i r = true := by
  have e24 : (mkRat 2 10 : ℚ) ≤ mkRat 4 10 := by decide
  have e46 : (mkRat 4 10 : ℚ) ≤ mkRat 6 10 := by decide
  have e68 : (mkRat 6 10 : ℚ) ≤ mkRat 8 10 := by decide
  rcases lt_or_le r (mkRat 2 10) with h1 | h1
  · refine ⟨0, ⟨by omega, by simp only [band_memb, decide_eq_true_eq]; exact h1⟩, ?_⟩
    rintro j ⟨hj5, hj⟩
    interval_cases j
    · rfl
    · simp only [band_memb, decide_eq_true_eq] at hj
      exact absurd hj.1 (not_le.mpr h1)
    · simp only [band_memb, decide_eq_true_eq] at hj
      exact absurd (e24.trans hj.1) (not_le.mpr h1)
    · simp only [band_memb, decide_eq_true_eq] at hj
      exact absurd (e24.trans (e46.trans hj.1.le)) (not_le.mpr h1)
    · simp only [band_memb, decide_eq_true_eq] at hj
      exact absurd (e24.trans (e46.trans (e68.trans hj.le))) (not_le.mpr h1)
  rcases lt_or_le r (mkRat 4 10) with h2 | h2
  · refine ⟨1, ⟨by omega, by simp only [band_memb, decide_eq_true_eq]; exact ⟨h1, h2⟩⟩, ?_⟩
    rintro j ⟨hj5, hj⟩
    interval_cases j
    · simp only [band_memb, decide_eq_true_eq] at hj
      exact absurd h1 (not_le.mpr hj)
    · rfl
    · simp only [band_memb, decide_eq_true_eq] at hj
      exact absurd hj.1 (not_le.mpr h2)
    · simp only [band_memb, decide_eq_true_eq] at hj
      exact absurd (e46.trans hj.1.le) (not_le.mpr h2)
    · simp only [band_memb, decide_eq_true_eq] at hj
      exact absurd (e46.trans (e68.trans hj.le)) (not_le.mpr h2)
  rcases le_or_lt r (mkRat 6 10) with h3 | h3
  · refine ⟨2, ⟨by omega, by simp only [band_memb, decide_eq_true_eq]; exact ⟨h2, h3⟩⟩, ?_⟩
    rintro j ⟨hj5, hj⟩
    interval_cases j
    · simp only [band_memb, decide_eq_true_eq] at hj
      exact absurd (e24.trans h2) (not_le.mpr hj)
    · simp only [band_memb, decide_eq_true_eq] at hj
      exact absurd h2 (not_le.mpr hj.2)
    · rfl
    · simp only [band_memb, decide_eq_true_eq] at hj
      exact absurd h3 (not_le.mpr hj.1)
    · simp only [band_memb, decide_eq_true_eq] at hj
      exact absurd (h3.trans e68) (not_le.mpr hj)
  rcases le_or_lt r (mkRat 8 10) with h4 | h4
  · refine ⟨3, ⟨by omega, by simp only [band_memb, decide_eq_true_eq]; exact ⟨h3, h4⟩⟩, ?_⟩
    rintro j ⟨hj5, hj⟩
    interval_cases j
    · simp only [band_memb, decide_eq_true_eq] at hj
      exact absurd (e24.trans (e46.trans h3.le)) (not_le.mpr hj)
    · simp only [band_memb, decide_eq_true_eq] at hj
      exact absurd (e46.trans h3.le) (not_le.mpr hj.2)
    · simp only [band_memb, decide_eq_true_eq] at hj
      exact absurd hj.2 (not_le.mpr h3)
    · rfl
    · simp only [band_memb, decide_eq_true_eq] at hj
      exact absurd h4 (not_le.mpr hj)
  · refine ⟨4, ⟨by omega, by simp only [band_memb, decide_eq_true_eq]; exact h4⟩, ?_⟩
    rintro j ⟨hj5, hj⟩
    interval_cases j
    · simp only [band_memb, decide_eq_true_eq] at hj
      exact absurd (e24.trans (e46.trans (e68.trans h4.le))) (not_le.mpr hj)
    · simp only [band_memb, decide_eq_true_eq] at hj
      exact absurd (e46.trans (e68.trans h4.le)) (not_le.mpr hj.2)
    · simp only [band_memb, decide_eq_true_eq] at hj
      exact absurd hj.2 (not_le.mpr (lt_of_le_of_lt e68 h4))
    · simp only [band_memb, decide_eq_true_eq] at hj
      exact absurd hj.2 (not_le.mpr h4)
    · rfl

/-- C3: for a fold at or above the quality threshold, the clamped fold
ratio lies in [0, 1] and falls into exactly one of the five bands
(0.2/0.4/0.6/0.8 boundaries), and the classifier maps the bands as:
below 0.2 partial_left at the fold quality with fold side left, above
0.8 partial_right at the fold quality with fold side right, within
[0.4, 0.6] book_spread, and the two remaining bands unknown at half the
fold quality with the ambiguous-fold-position reason. -/
theorem classify_document_band_policy (qt q : ℚ) (h w : Nat) (c : Contour) (fx : Int)
    (hq : qt ≤ q) :
    (0 ≤ calculate_fold_position fx c ∧ calculate_fold_position fx c ≤ 1) ∧
    (∃! i : Nat, i < 5 ∧ band_memb i (calculate_fold_position fx c) = true) ∧
    (calculate_fold_position fx c < mkRat 2 10 →
      classify_document qt h w c (some fx) q =
        ("partial_left", q,
          { Info.empty with
              fold_pos := some (calculate_fold_position fx c),
              page_width := some (get_page_width c),
              page_center_x := some (get_page_center_x c),
              fold_side := some "left" })) ∧
    (mkRat 8 10 < calculate_fold_position fx c →
      classify_document qt h w c (some fx) q =
        ("partial_right", q,
          { Info.empty with
              fold_pos := some (calculate_fold_position fx c),
              page_width := some (get_page_width c),
              page_center_x := some (get_page_center_x c),
              fold_side := some "right" })) ∧
    (mkRat 4 10 ≤ calculate_fold_position fx c → calculate_fold_position fx c ≤ mkRat 6 10 →
      (classify_document qt h w c (some fx) q).1 = "book_spread") ∧
    ((mkRat 2 10 ≤ calculate_fold_position fx c ∧ calculate_fold_position fx c < mkRat 4 10) ∨
      (mkRat 6 10 < calculate_fold_position fx c ∧ calculate_fold_position fx c ≤ mkRat 8 10) →
      classify_document qt h w c (some fx) q =
        ("unknown", q * (5/10),
          { Info.empty with
              fold_pos := some (calculate_fold_position fx c),
              page_width := some (get_page_width c),
              page_center_x := some (get_page_center_x c),
              reason := some "ambiguous_fold_position" })) := by
  have e24 : (mkRat 2 10 : ℚ) ≤ mkRat 4 10 := by decide
  have e46 : (mkRat 4 10 : ℚ) ≤ mkRat 6 10 := by decide
  have e68 : (mkRat 6 10 : ℚ) ≤ mkRat 8 10 := by decide
  have hm5 : (mkRat 5 10 : ℚ) = 5/10 := by rw [mkRat_q]; norm_num
  have hq' : ¬ q < qt := not_lt.mpr hq
  refine ⟨calculate_fold_position_range fx c,
    band_memb_exists_unique (calculate_fold_position fx c), ?_, ?_, ?_, ?_⟩
  · intro hlt
    have hnb : ¬ (mkRat 4 10 ≤ calculate_fold_position fx c ∧
        calculate_fold_position fx c ≤ mkRat 6 10) :=
      fun hc => absurd hc.1 (not_le.mpr (hlt.trans_le e24))
    simp only [classify_document, if_neg hq', if_neg hnb, if_pos hlt]
  · intro hgt
    have hnb : ¬ (mkRat 4 10 ≤ calculate_fold_position fx c ∧
        calculate_fold_position fx c ≤ mkRat 6 10) :=
      fun hc => absurd hc.2 (not_le.mpr (lt_of_le_of_lt e68 hgt))
    have hn2 : ¬ calculate_fold_position fx c < mkRat 2 10 :=
      not_lt.mpr ((e24.trans (e46.trans e68)).trans hgt.le)
    simp only [classify_document, if_neg hq', if_neg hnb, if_neg hn2, if_pos hgt]
  · intro ha hb
    simp only [classify_document, if_neg hq', if_pos (And.intro ha hb), classify_book_spread]
    split
    · rfl
    · rfl
  · intro hamb
    rcases hamb with ⟨ha, hb⟩ | ⟨ha, hb⟩
    · have hnb : ¬ (mkRat 4 10 ≤ calculate_fold_position fx c ∧
          calculate_fold_position fx c ≤ mkRat 6 10) :=
        fun hc => absurd hc.1 (not_le.mpr hb)
      have hn2 : ¬ calculate_fold_position fx c < mkRat 2 10 := not_lt.mpr ha
      have hn8 : ¬ mkRat 8 10 < calculate_fold_position fx c :=
        not_lt.mpr ((hb.trans_le (e46.trans e68)).le)
      simp only [classify_document, if_neg hq', if_neg hnb, if_neg hn2, if_neg hn8,
        qmul_eq_mul, hm5]
    · have hnb : ¬ (mkRat 4 10 ≤ calculate_fold_position fx c ∧
          calculate_fold_position fx c ≤ mkRat 6 10) :=
        fun hc => absurd hc.2 (not_le.mpr ha)
      have hn2 : ¬ calculate_fold_position fx c < mkRat 2 10 :=
        not_lt.mpr ((e24.trans e46).trans ha.le)
      have hn8 : ¬ mkRat 8 10 < calculate_fold_position fx c := not_lt.mpr hb
      simp only [classify_document, if_neg hq', if_neg hnb, if_neg hn2, if_neg hn8,
        qmul_eq_mul, hm5]

/-- A 100x100 page boundary used to instantiate C3. -/
def c3_contour : Contour := ⟨[(0, 0), (100, 0), (100, 100), (0, 100)]⟩

/-- Witness for C3 at threshold 0.6, quality 0.9, a 100x100 boundary
and a fold at x = 50 (ratio 1/2). -/
theorem classify_document_band_policy_witness :
    (0 ≤ calculate_fold_position 50 c3_contour ∧ calculate_fold_position 50 c3_contour ≤ 1) ∧
    (∃! i : Nat, i < 5 ∧ band_memb i (calculate_fold_position 50 c3_contour) = true) ∧
    (calculate_fold_position 50 c3_contour < mkRat 2 10 →
      classify_document (mkRat 6 10) 100 100 c3_contour (some 50) (mkRat 9 10) =
        ("partial_left", mkRat 9 10,
          { Info.empty with
              fold_pos := some (calculate_fold_position 50 c3_contour),
              page_width := some (get_page_width c3_contour),
              page_center_x := some (get_page_center_x c3_contour),
              fold_side := some "left" })) ∧
    (mkRat 8 10 < calculate_fold_position 50 c3_contour →
      classify_document (mkRat 6 10) 100 100 c3_contour (some 50) (mkRat 9 10) =
        ("partial_right", mkRat 9 10,
          { Info.empty with
              fold_pos := some (calculate_fold_position 50 c3_contour),
              page_width := some (get_page_width c3_contour),
              page_center_x := some (get_page_center_x c3_contour),
              fold_side := some "right" })) ∧
    (mkRat 4 10 ≤ calculate_fold_position 50 c3_contour →
      calculate_fold_position 50 c3_contour ≤ mkRat 6 10 →
      (classify_document (mkRat 6 10) 100 100 c3_contour (some 50) (mkRat 9 10)).1
        = "book_spread") ∧
    ((mkRat 2 10 ≤ calculate_fold_position 50 c3_contour ∧
        calculate_fold_position 50 c3_contour < mkRat 4 10) ∨
      (mkRat 6 10 < calculate_fold_position 50 c3_contour ∧
        calculate_fold_position 50 c3_contour ≤ mkRat 8 10) →
      classify_document (mkRat 6 10) 100 100 c3_contour (some 50) (mkRat 9 10) =
        ("unknown", mkRat 9 10 * (5/10),
          { Info.empty with
              fold_pos := some (calculate_fold_position 50 c3_contour),
              page_width := some (get_page_width c3_contour),
              page_center_x := some (get_page_center_x c3_contour),
              reason := some "ambiguous_fold_position" })) :=
  classify_document_band_policy (mkRat 6 10) (mkRat 9 10) 100 100 c3_contour 50 (by decide)

/-- A 90%-coverage page boundary on a 100x100 image, used to
instantiate C7. -/
def c7_contour : Contour := ⟨[(0, 0), (100, 0), (100, 90), (0, 90)]⟩

/-- Witness for C7 at threshold 0.6, quality 0.9, a 90%-coverage
boundary and a fold at x = 50 (ratio 1/2). -/
theorem classify_book_spread_coverage_witness :
    (page_covers_full_image (some c7_contour) 100 100 (mkRat 85 100) = true →
      classify_document (mkRat 6 10) 100 100 c7_contour (some 50) (mkRat 9 10) =
        ("book_spread", mkRat 9 10 * (7/10),
          { Info.empty with
              fold_pos := some (calculate_fold_position 50 c7_contour),
              page_width := some (get_page_width c7_contour),
              page_center_x := some (get_page_center_x c7_contour),
              warnings := [bookSpreadWarning],
              page_coverage := some true })) ∧
    (page_covers_full_image (some c7_contour) 100 100 (mkRat 85 100) = false →
      classify_document (mkRat 6 10) 100 100 c7_contour (some 50) (mkRat 9 10) =
        ("book_spread", mkRat 9 10,
          { Info.empty with
              fold_pos := some (calculate_fold_position 50 c7_contour),
              page_width := some (get_page_width c7_contour),
              page_center_x := some (get_page_center_x c7_contour),
              page_coverage := some false })) :=
  classify_book_spread_coverage (mkRat 6 10) (mkRat 9 10) 100 100 c7_contour 50
    (by decide) (by decide) (by decide)

/-- Helper: every reachable return path of the book-spread processor
passes the classification-metadata warnings through unchanged. -/
theorem book_spread_process_warnings (cfg : Config) (wenv : WarpEnv) (img : Img)
    (fx : Int) (q : ℚ) (mw : List String) :
    (book_spread_process cfg wenv img fx q mw).warnings = mw := by
  unfold book_spread_process apply_perspective_correction cv_perspective_transform_line
  rcases wenv.warpResult with _ | wimg
  · rfl
  · rfl

/-- The input image of C10's scenario. -/
def c10_img : Img := ⟨100, List.replicate 100 0⟩

/-- A 90%-coverage boundary for C10's scenario: classified book spread
with the both-pages-visible warning. -/
def c10_contour : Contour := ⟨[(0, 0), (100, 0), (100, 90), (0, 90)]⟩

/-- C10's scan environment: loading succeeds, boundary and a strong
center fold are detected, warping succeeds. -/
def c10_env : ScanEnv :=
  ⟨Except.ok c10_img,
   ⟨some c10_contour, [some (50, mkRat 9 10, "hough"), none, none]⟩,
   ⟨some c10_img⟩⟩

/-- C10 counterexample: the classifier emits the both-pages-visible
warning once, yet the final scan result contains it twice — the
orchestrator collects the warnings from the detection metadata and from
the processor result, and the book-spread processor returns the
metadata warnings as its own. -/
theorem c10_warning_not_once_counterexample :
    (detect default_config.quality_threshold c10_img.height c10_img.width
        c10_env.denv).2.2.info.warnings = [bookSpreadWarning] ∧
    (scan default_config c10_env).warnings = [bookSpreadWarning, bookSpreadWarning] ∧
    (scan default_config c10_env).warnings.count bookSpreadWarning = 2 :=
  ⟨by decide, by decide, by decide⟩

/-- C10 amended: the processors are pure and leave the classification
metadata unchanged, but whenever the classification is book_spread the
final result's warnings list is the classifier's warnings list
concatenated with itself, so each classifier warning appears exactly
twice. -/
theorem scan_book_spread_warning_duplication (cfg : Config) (env : ScanEnv) (img : Img)
    (hl : env.loadResult = Except.ok img)
    (hd : (detect cfg.quality_threshold img.height img.width env.denv).1 = "book_spread") :
    (scan cfg env).warnings =
      (detect cfg.quality_threshold img.height img.width env.denv).2.2.info.warnings ++
        (detect cfg.quality_threshold img.height img.width env.denv).2.2.info.warnings ∧
    ∀ s : String,
      (scan cfg env).warnings.count s =
        2 * ((detect cfg.quality_threshold img.height img.width
          env.denv).2.2.info.warnings.count s) := by
  have key : (scan cfg env).warnings =
      (detect cfg.quality_threshold img.height img.width env.denv).2.2.info.warnings ++
        (detect cfg.quality_threshold img.height img.width env.denv).2.2.info.warnings := by
    unfold scan scan_body
    rw [hl]
    simp [hd, create_result, book_spread_process_warnings]
  refine ⟨key, fun s => ?_⟩
  rw [key, List.count_append, two_mul]

/-- Witness for the amended C10 at the C10 scenario environment. -/
theorem scan_book_spread_warning_duplication_witness :
    (scan default_config c10_env).warnings =
      (detect default_config.quality_threshold c10_img.height c10_img.width
          c10_env.denv).2.2.info.warnings ++
        (detect default_config.quality_threshold c10_img.height c10_img.width
          c10_env.denv).2.2.info.warnings ∧
    ∀ s : String,
      (scan default_config c10_env).warnings.count s =
        2 * ((detect default_config.quality_threshold c10_img.height c10_img.width
          c10_env.denv).2.2.info.warnings.count s) :=
  scan_book_spread_warning_duplication default_config c10_env c10_img rfl (by decide)

end CamScan
